import Mathlib

/-!
Shallow embedding of the transport-resolution and engine-orchestration layer
of `ramalama/cli.py`, together with theorems checking the natural-language
specification of that module against the code.

Python strings are embedded as `String`, Python `None`-able values as
`Option`, Python exceptions as an explicit error type threaded through
`Except`, and subprocess / backend side effects as explicit traces of the
calls an operation performs, driven by environment records supplying the
results of those calls.
-/

namespace Ramalama

/-- Python exception kinds raised by the embedded code
(`KeyError`, `ValueError`, `IndexError`, `subprocess.CalledProcessError`). -/
inductive Err where
  | keyError (msg : String)
  | valueError (msg : String)
  | indexError (msg : String)
  | calledProcessError (code : Nat)
deriving DecidableEq, Repr

/-- Discriminates the `KeyError` kind, as the `except KeyError` clause of
`_rm_model` does. -/
def Err.isKeyError : Err → Bool
  | .keyError _ => true
  | _ => false

/-- Python `s.startswith(pre)`. -/
def startswith (s pre : String) : Bool := pre.data.isPrefixOf s.data

/-- Python `pat in s` (substring containment). -/
def containsSub (s pat : String) : Bool :=
  (List.range (s.data.length + 1)).any fun i => pat.data.isPrefixOf (s.data.drop i)

/-- The model-backend variants constructed by `New` in `cli.py`:
`Huggingface(model)`, `Ollama(model)`, `OCI(model, engine)`, `URL(model)`.
Each owns only its reference string (and, for OCI, the engine name). -/
inductive Backend where
  | huggingface (model : String)
  | ollama (model : String)
  | oci (model : String) (engine : String)
  | url (model : String)
deriving DecidableEq, Repr

/-- First prefix test of `New`:
`model.startswith("huggingface://") or model.startswith("hf://") or model.startswith("hf.co/")`. -/
def isHFRef (s : String) : Bool :=
  startswith s "huggingface://" || startswith s "hf://" || startswith s "hf.co/"

/-- Second prefix test of `New`:
`model.startswith("ollama://") or "ollama.com/library/" in model`. -/
def isOllamaRef (s : String) : Bool :=
  startswith s "ollama://" || containsSub s "ollama.com/library/"

/-- Third prefix test of `New`:
`model.startswith("oci://") or model.startswith("docker://")`. -/
def isOCIRef (s : String) : Bool :=
  startswith s "oci://" || startswith s "docker://"

/-- Fourth prefix test of `New`:
`model.startswith("http://") or model.startswith("https://") or model.startswith("file://")`. -/
def isURLRef (s : String) : Bool :=
  startswith s "http://" || startswith s "https://" || startswith s "file://"

/-- `New(model, args)` from `cli.py`: the backend resolver. `transport` is
`config.get("transport", "ollama")` (the merged default transport) and
`engine` is `args.engine`. The Python function only tests prefixes and
constructs a backend object; it performs no I/O, which the embedding
reflects by being a total pure function. -/
def New (model : String) (transport : String) (engine : String) : Except Err Backend :=
  if isHFRef model then .ok (.huggingface model)
  else if isOllamaRef model then .ok (.ollama model)
  else if isOCIRef model then .ok (.oci model engine)
  else if isURLRef model then .ok (.url model)
  else if transport = "huggingface" then .ok (.huggingface model)
  else if transport = "ollama" then .ok (.ollama model)
  else if transport = "oci" then .ok (.oci model engine)
  else .error (.keyError
    ("transport \"" ++ transport ++ "\" not supported. Must be oci, huggingface, or ollama."))

/-- A value held in the merged configuration dictionary: either a string
(as produced by `os.getenv` or a string-valued TOML key) or a boolean
(as produced by `use_container()` or a boolean TOML key). -/
inductive Val where
  | vstr (s : String)
  | vbool (b : Bool)
deriving DecidableEq, Repr

/-- The five override environment variables read by `load_and_merge_config`
and `use_container`. `some s` means the variable is set to `s` (possibly
empty), `none` means unset, matching `os.getenv` semantics. -/
structure Env where
  inContainer : Option String
  containerEngine : Option String
  image : Option String
  store : Option String
  transport : Option String
deriving DecidableEq, Repr

/-- The `[ramalama]` table of the merged configuration files, as returned by
`load_config()`: `none` means the key is absent. -/
structure FileConfig where
  container : Option Val
  engine : Option String
  image : Option String
  nocontainer : Option Bool
  carimage : Option String
  runtime : Option String
  store : Option String
  transport : Option String
deriving DecidableEq, Repr

/-- `use_container()` from `cli.py`: a set, non-empty `RAMALAMA_IN_CONTAINER`
decides by case-insensitive comparison with "true"; otherwise container use
defaults to whether a container manager was found. -/
def use_container (inContainerEnv : Option String) (conman : Option String) : Bool :=
  match inContainerEnv with
  | some s => if s ≠ "" then s.toLower == "true" else conman.isSome
  | none => conman.isSome

/-- The effective configuration produced by `load_and_merge_config`. -/
structure MergedConfig where
  container : Val
  engine : Option String
  image : String
  nocontainer : Bool
  carimage : String
  runtime : String
  store : String
  transport : String
deriving DecidableEq, Repr

/-- `load_and_merge_config()` from `cli.py`. `conman` is the result of
`container_manager()`, `defaultImage` of `default_image()`, and
`defaultStore` of `get_store()` (external collaborators). Mirrors the
statement order of the source: the container key is first set from the
environment/file, then `nocontainer` forces it to `False`, or else it is
re-read from the environment/previously stored key. -/
def load_and_merge_config (env : Env) (file : FileConfig) (conman : Option String)
    (defaultImage : String) (defaultStore : String) : MergedConfig :=
  let container0 : Val :=
    match env.inContainer with
    | some s => .vstr s
    | none => file.container.getD (.vbool (use_container env.inContainer conman))
  let engine : Option String :=
    match env.containerEngine with
    | some s => some s
    | none =>
      match file.engine with
      | some v => some v
      | none => conman
  let image : String :=
    match env.image with
    | some s => s
    | none => file.image.getD defaultImage
  let nocontainer : Bool := file.nocontainer.getD false
  let container : Val :=
    if nocontainer then .vbool false
    else
      match env.inContainer with
      | some s => .vstr s
      | none => container0
  { container := container
    engine := engine
    image := image
    nocontainer := nocontainer
    carimage := file.carimage.getD "registry.access.redhat.com/ubi9-micro:latest"
    runtime := file.runtime.getD "llama.cpp"
    store :=
      match env.store with
      | some s => s
      | none => file.store.getD defaultStore
    transport :=
      match env.transport with
      | some s => s
      | none => file.transport.getD "ollama" }

/-- `human_duration(d)` from `cli.py`, on a nonnegative number of seconds.
Python `//` on nonnegative ints coincides with `Nat` division. -/
def human_duration (d : Nat) : String :=
  if d < 1 then "Less than a second"
  else if d = 1 then "1 second"
  else if d < 60 then toString d ++ " seconds"
  else if d < 120 then "1 minute"
  else if d < 3600 then toString (d / 60) ++ " minutes"
  else if d < 7200 then "1 hour"
  else if d < 86400 then toString (d / 3600) ++ " hours"
  else if d < 172800 then "1 day"
  else if d < 604800 then toString (d / 86400) ++ " days"
  else if d < 1209600 then "1 week"
  else if d < 2419200 then toString (d / 604800) ++ " weeks"
  else if d < 4838400 then "1 month"
  else if d < 31536000 then toString (d / 2419200) ++ " months"
  else if d < 63072000 then "1 year"
  else toString (d / 31536000) ++ " years"

/-- The `modified` field of a listing entry: local entries carry an integer
age in seconds; entries reported by the OCI listing may carry a pre-rendered
string, which `list_cli` prints as-is after catching the `TypeError` from
`human_duration`. -/
inductive ModifiedVal where
  | secs (n : Nat)
  | raw (s : String)
deriving DecidableEq, Repr

/-- One entry of the model listing assembled by `_list_models`:
a dict `{"name": ..., "modified": ..., "size": ...}`. -/
structure ModelEntry where
  name : String
  modified : ModifiedVal
  size : String
deriving DecidableEq, Repr

/-- The `modified` column text computed in `list_cli`:
`human_duration(model["modified"]) + " ago"`, falling back to the raw value
on `TypeError`. -/
def fmtModified (m : ModelEntry) : String :=
  match m.modified with
  | .secs n => human_duration n ++ " ago"
  | .raw s => s

/-- Python `c.upper()` for a single character, on the ASCII range the
listing data uses. -/
def upperChar (c : Char) : Char :=
  if 'a' ≤ c ∧ c ≤ 'z' then Char.ofNat (c.toNat - 32) else c

/-- Python `s.upper()` (ASCII range). -/
def upperStr (s : String) : String := String.mk (s.data.map upperChar)

/-- Python format `f"{s:<{w}}"`: left-justify `s` in a field of width `w`. -/
def padRight (s : String) (w : Nat) : String :=
  s ++ String.mk (List.replicate (w - s.length) ' ')

/-- Lexicographic comparison of char lists, used to embed Python string
ordering for `sorted(models, key=lambda d: d['name'])`. -/
def lexLe : List Char → List Char → Bool
  | [], _ => true
  | _ :: _, [] => false
  | a :: as, b :: bs => if a < b then true else if b < a then false else lexLe as bs

/-- Comparator for `sorted(models, key=lambda d: d['name'])`. -/
def nameLe (a b : ModelEntry) : Bool := lexLe a.name.data b.name.data

/-- `_list_models` from `cli.py`, abstracted over its two data sources: it
appends the OCI backend's listing (`ramalama.oci.list_models(args)`) to the
locally collected entries (which `list_files_by_modification` yields in
most-recently-modified-first order). -/
def _list_models (localModels ociModels : List ModelEntry) : List ModelEntry :=
  localModels ++ ociModels

/-- The column widths computed by the width loop of `list_cli`: maxima of
the header captions and every entry's rendered fields. -/
def colWidths (l : List ModelEntry) : Nat × Nat × Nat :=
  (l.foldl (fun w m => max w m.name.length) "NAME".length,
   l.foldl (fun w m => max w (fmtModified m).length) "MODIFIED".length,
   l.foldl (fun w m => max w m.size.length) "SIZE".length)

/-- The heading row printed by `list_cli`. -/
def headerLine (w : Nat × Nat × Nat) : String :=
  padRight "NAME" w.1 ++ " " ++ padRight "MODIFIED" w.2.1 ++ " " ++ padRight "SIZE" w.2.2

/-- One row printed by the output loop of `list_cli`: just the name when
`--quiet`, otherwise the aligned name/modified/size columns with the size
uppercased. -/
def rowLine (quiet : Bool) (w : Nat × Nat × Nat) (m : ModelEntry) : String :=
  if quiet then m.name
  else padRight m.name w.1 ++ " " ++ padRight (fmtModified m) w.2.1
    ++ " " ++ padRight (upperStr m.size) w.2.2

/-- The non-JSON branch of `list_cli` from `cli.py`, returning the printed
lines: widths are accumulated over `sorted(models, key=lambda d: d['name'])`,
the heading is printed unless `--quiet`/`--noheading`, and the output loop
iterates over `models` itself. -/
def list_cli_print (noheading quiet : Bool) (models : List ModelEntry) : List String :=
  let w := colWidths (List.mergeSort models nameLe)
  (if !quiet && !noheading then [headerLine w] else []) ++ models.map (rowLine quiet w)

/-- One invocation of `run_cmd`: the argument vector and whether the
diagnostic stream (stderr) was suppressed. -/
structure Call where
  cmd : List String
  ignoreStderr : Bool
deriving DecidableEq, Repr

/-- The external container engine, as observed through `run_cmd`:
given an argument vector and the stderr-suppression flag it either returns
stdout or fails with a nonzero exit code (`subprocess.CalledProcessError`). -/
structure EngineEnv where
  run : List String → Bool → Except Nat String

/-- The parsed-arguments record consumed by `stop_container`,
`_stop_container` and `_list_containers`. -/
structure StopArgs where
  all : Bool
  name : Option String
  ignore : Bool
  engine : String
  noheading : Bool
  notrunc : Bool
  format : Option String
deriving DecidableEq, Repr

/-- `_list_containers(args)` from `cli.py`, returning its result paired with
the trace of engine invocations. An empty stdout yields an empty list; a
nonzero exit is re-raised. -/
def _list_containers (env : EngineEnv) (args : StopArgs) :
    Except Err (List String) × List Call :=
  if args.engine = "" then
    (.error (.valueError "no container manager (Podman, Docker) found"), [])
  else
    let cmd := [args.engine, "ps", "-a", "--filter", "label=ai.ramalama"]
      ++ (if args.noheading then ["--noheading"] else [])
      ++ (if args.notrunc then ["--no-trunc"] else [])
      ++ (match args.format with
          | some f => ["--format=" ++ f]
          | none => [])
    match env.run cmd false with
    | .ok out => (if out = "" then .ok [] else .ok (out.splitOn "\n"), [⟨cmd, false⟩])
    | .error code => (.error (.calledProcessError code), [⟨cmd, false⟩])

/-- `_stop_container(args, name)` from `cli.py`: rejects a missing name and
a missing engine; passes `--ignore True` natively on podman; suppresses
stderr instead on every other engine when `--ignore` was requested; and
swallows a `CalledProcessError` only when `--ignore` was requested and the
engine is docker. -/
def _stop_container (env : EngineEnv) (args : StopArgs) (name : Option String) :
    Except Err Unit × List Call :=
  match name with
  | none => (.error (.valueError "must specify a container name"), [])
  | some n =>
    if n = "" then (.error (.valueError "must specify a container name"), [])
    else if args.engine = "" then
      (.error (.valueError "no container manager (Podman, Docker) found"), [])
    else
      let base := [args.engine, "stop", "-t=0"]
      let withIgnore :=
        if args.ignore then
          if args.engine = "podman" then base ++ ["--ignore", "True"] else base
        else base
      let ignoreStderr := args.ignore && args.engine ≠ "podman"
      let cmd := withIgnore ++ [n]
      match env.run cmd ignoreStderr with
      | .ok _ => (.ok (), [⟨cmd, ignoreStderr⟩])
      | .error code =>
        if args.ignore && args.engine = "docker" then (.ok (), [⟨cmd, ignoreStderr⟩])
        else (.error (.calledProcessError code), [⟨cmd, ignoreStderr⟩])

/-- The loop of the `--all` branch of `stop_container`: stop every listed
name, accumulating the engine-call trace, first failure aborting. -/
def stopEach (env : EngineEnv) (args : StopArgs) :
    List String → List Call → Except Err Unit × List Call
  | [], acc => (.ok (), acc)
  | n :: rest, acc =>
    match _stop_container env args (some n) with
    | (.ok _, t) => stopEach env args rest (acc ++ t)
    | (.error e, t) => (.error e, acc ++ t)

/-- The `--all` path of `stop_container`, reached once the NAME conflict
check has passed: force `--ignore`, list container names via a
`\x7b\x7b .Names \x7d\x7d` format and stop each. -/
def stop_all (env : EngineEnv) (args : StopArgs) : Except Err Unit × List Call :=
  let args2 := { args with ignore := true, format := some "\x7b\x7b .Names \x7d\x7d" }
  match _list_containers env args2 with
  | (.error e, t) => (.error e, t)
  | (.ok names, t) => stopEach env args2 names t

/-- `stop_container(args)` from `cli.py`: without `--all`, stop the named
container; with `--all`, reject a truthy NAME before anything else — the
guard is Python `if args.NAME:`, so an unset NAME and an empty-string NAME
are both falsy and proceed to the stop-all path — then force `--ignore`,
list container names and stop each. -/
def stop_container (env : EngineEnv) (args : StopArgs) : Except Err Unit × List Call :=
  if !args.all then _stop_container env args args.name
  else
    match args.name with
    | some n =>
      if n ≠ "" then
        (.error (.valueError ("specifying --all and container name, " ++ n ++ ", not allowed")), [])
      else stop_all env args
    | none => stop_all env args

/-- Modelled from the spec: the `MODEL_TYPES` list of recognised transport
scheme names (module `ramalama.model`, absent from src/), taken from the
spec's list of recognised transport prefixes (§3): `huggingface://`,
`hf://`, `ollama://`, `oci://`, `docker://`, `http://`, `https://`,
`file://`. `_rm_model` and `push_cli` test `model.startswith(t + "://")`
for each scheme name `t` in it. -/
def MODEL_TYPES : List String :=
  ["huggingface", "hf", "ollama", "oci", "docker", "http", "https", "file"]

/-- The external collaborators of `_rm_model`: the shortname expander
(Python falsy result meaning "no expansion"), the resolved backend's
`remove` verb, and the OCI fallback `OCI(model, args.engine).remove(args,
ignore_stderr=True)`. The backend verbs are opaque services; their outcome
on a given input is supplied by this record. -/
structure RmEnv where
  shortnameResolve : String → Option String
  removeModel : Backend → Except Err Unit
  removeOci : String → String → Except Err Unit

/-- One backend-effecting action performed by the remove orchestration. -/
inductive RmAction where
  | removeModel (b : Backend)
  | removeOci (model : String) (engine : String)
  | listLocalModels
deriving DecidableEq, Repr

/-- The parsed-arguments record consumed by `rm_cli` and `_rm_model`. -/
structure RmArgs where
  all : Bool
  ignore : Bool
  models : List String
  engine : String
  transport : String
deriving DecidableEq, Repr

/-- Outcome of one iteration of the `_rm_model` loop: either fall through to
the next model, or the early `return` taken after a successful
container-image fallback removal. -/
inductive RmOutcome where
  | next
  | earlyReturn
deriving DecidableEq, Repr

/-- One iteration of the loop of `_rm_model(models, args)` from `cli.py`:
expand the shortname (a falsy expansion keeps the original), resolve and
remove; on a `KeyError` propagate it if the name carries a recognised
`scheme://` prefix and `--ignore` is not set, otherwise retry as a container
image with stderr suppressed, returning early on success, and propagate the
original error on a failed retry unless `--ignore` is set. -/
def rmOne (env : RmEnv) (args : RmArgs) (model : String) :
    Except Err RmOutcome × List RmAction :=
  let model :=
    match env.shortnameResolve model with
    | some r => if r = "" then model else r
    | none => model
  let attempt : Except Err Unit × List RmAction :=
    match New model args.transport args.engine with
    | .ok b =>
      match env.removeModel b with
      | .ok _ => (.ok (), [.removeModel b])
      | .error e => (.error e, [.removeModel b])
    | .error e => (.error e, [])
  match attempt with
  | (.ok _, t) => (.ok .next, t)
  | (.error e, t) =>
    if e.isKeyError then
      if (MODEL_TYPES.any fun p => startswith model (p ++ "://")) && !args.ignore then
        (.error e, t)
      else
        match env.removeOci model args.engine with
        | .ok _ => (.ok .earlyReturn, t ++ [.removeOci model args.engine])
        | .error _ =>
          if !args.ignore then (.error e, t ++ [.removeOci model args.engine])
          else (.ok .next, t ++ [.removeOci model args.engine])
    else (.error e, t)

/-- `_rm_model(models, args)` from `cli.py`: iterate `rmOne`, an early
`return` ending the whole loop successfully. -/
def _rm_model (env : RmEnv) (args : RmArgs) : List String → Except Err Unit × List RmAction
  | [] => (.ok (), [])
  | m :: rest =>
    match rmOne env args m with
    | (.ok .next, t) =>
      let r := _rm_model env args rest
      (r.1, t ++ r.2)
    | (.ok .earlyReturn, t) => (.ok (), t)
    | (.error e, t) => (.error e, t)

/-- `rm_cli(args)` from `cli.py`. `localNames` stands for the names produced
by `_list_models(args)` in the `--all` branch; gathering them is recorded as
a `listLocalModels` action since it scans the store and queries the OCI
backend. Both usage errors are raised before any listing or removal. -/
def rm_cli (env : RmEnv) (localNames : List String) (args : RmArgs) :
    Except Err Unit × List RmAction :=
  if !args.all then
    if args.models.length = 0 then
      (.error (.indexError "one MODEL or --all must be specified"), [])
    else _rm_model env args args.models
  else if args.models.length > 0 then
    (.error (.indexError "can not specify --all as well MODEL"), [])
  else
    let r := _rm_model env args localNames
    (r.1, .listLocalModels :: r.2)

/-- `normalize_registry(registry)` from `cli.py`. Note the Python list
literal `["ollama", "hf" "huggingface"]`: adjacent string literals
concatenate, so its elements are `"ollama"` and `"hfhuggingface"`. -/
def normalize_registry (registry : Option String) : String :=
  match registry with
  | none => "oci://"
  | some r =>
    if r = "" || startswith r "oci://" then "oci://"
    else if r = "ollama" || r = "hfhuggingface" then r
    else "oci://" ++ r

/-- Example listing for exercising `list_cli_print`: one locally stored
entry and one OCI-reported entry, per §8 of the spec. -/
def exampleModels : List ModelEntry :=
  _list_models [⟨"ollama://foo", .secs 5, "10 B"⟩] [⟨"oci://bar", .raw "N/A", "20 B"⟩]

/-- An engine whose every invocation exits nonzero, as a missing container
makes `stop` do. -/
def failingEngine : EngineEnv := ⟨fun _ _ => .error 1⟩

/-- Backend environment for the removal scenario of a missing `oci://`
model: shortnames never expand, the resolved backend's `remove` and the
container-image fallback both report the model as missing. -/
def missingOciEnv : RmEnv :=
  ⟨fun _ => none,
   fun _ => .error (.keyError "removing oci://x: model not found"),
   fun _ _ => .error (.keyError "image not known")⟩


/-- Two lists neither of which is a prefix of the other cannot both be
prefixes of a third list. -/
theorem isPrefixOf_disjoint (p : List Char) :
    ∀ (q l : List Char), p.isPrefixOf q = false → q.isPrefixOf p = false →
      p.isPrefixOf l = true → q.isPrefixOf l = false := by
  induction p with
  | nil =>
    intro q l h1 h2 hp
    simp only [List.isPrefixOf] at h1
    exact absurd h1 (by simp)
  | cons a as ih =>
    intro q l h1 h2 hp
    cases l with
    | nil => simp only [List.isPrefixOf] at hp; exact absurd hp (by simp)
    | cons c cs =>
      cases q with
      | nil => simp only [List.isPrefixOf] at h2; exact absurd h2 (by simp)
      | cons b bs =>
        have hac : (a == c) = true ∧ as.isPrefixOf cs = true := by
          simpa only [List.isPrefixOf, Bool.and_eq_true] using hp
        by_cases hbc : b = c
        · subst hbc
          have hab : a = b := eq_of_beq hac.1
          subst hab
          have h1' : as.isPrefixOf bs = false := by
            cases hx : as.isPrefixOf bs with
            | false => rfl
            | true => simp only [List.isPrefixOf, hx] at h1; simp at h1
          have h2' : bs.isPrefixOf as = false := by
            cases hx : bs.isPrefixOf as with
            | false => rfl
            | true => simp only [List.isPrefixOf, hx] at h2; simp at h2
          have hres := ih bs cs h1' h2' hac.2
          simp only [List.isPrefixOf, hres, Bool.and_false]
        · have hbcF : (b == c) = false := beq_false_of_ne hbc
          simp only [List.isPrefixOf, hbcF, Bool.false_and]

/-- Transfer of prefix disjointness to `startswith`: a string starting with
`p` cannot also start with a `q` that neither extends nor is extended by
`p`. -/
theorem startswith_disjoint (s p q : String)
    (h1 : p.data.isPrefixOf q.data = false) (h2 : q.data.isPrefixOf p.data = false)
    (h : startswith s p = true) : startswith s q = false :=
  isPrefixOf_disjoint p.data q.data s.data h1 h2 h

/-- A string starting with `ollama://` matches no Huggingface prefix. -/
theorem isHFRef_false_of_ollama (s : String) (h : startswith s "ollama://" = true) :
    isHFRef s = false := by
  have h1 := startswith_disjoint s "ollama://" "huggingface://" (by decide) (by decide) h
  have h2 := startswith_disjoint s "ollama://" "hf://" (by decide) (by decide) h
  have h3 := startswith_disjoint s "ollama://" "hf.co/" (by decide) (by decide) h
  simp [isHFRef, h1, h2, h3]

/-- A string with an OCI prefix matches no Huggingface prefix. -/
theorem isHFRef_false_of_oci (s : String) (h : isOCIRef s = true) : isHFRef s = false := by
  rcases Bool.or_eq_true _ _ |>.mp h with h | h
  · have h1 := startswith_disjoint s "oci://" "huggingface://" (by decide) (by decide) h
    have h2 := startswith_disjoint s "oci://" "hf://" (by decide) (by decide) h
    have h3 := startswith_disjoint s "oci://" "hf.co/" (by decide) (by decide) h
    simp [isHFRef, h1, h2, h3]
  · have h1 := startswith_disjoint s "docker://" "huggingface://" (by decide) (by decide) h
    have h2 := startswith_disjoint s "docker://" "hf://" (by decide) (by decide) h
    have h3 := startswith_disjoint s "docker://" "hf.co/" (by decide) (by decide) h
    simp [isHFRef, h1, h2, h3]

/-- A string with a URL prefix matches no Huggingface prefix. -/
theorem isHFRef_false_of_url (s : String) (h : isURLRef s = true) : isHFRef s = false := by
  rcases Bool.or_eq_true _ _ |>.mp h with h' | h
  · rcases Bool.or_eq_true _ _ |>.mp h' with h | h
    · have h1 := startswith_disjoint s "http://" "huggingface://" (by decide) (by decide) h
      have h2 := startswith_disjoint s "http://" "hf://" (by decide) (by decide) h
      have h3 := startswith_disjoint s "http://" "hf.co/" (by decide) (by decide) h
      simp [isHFRef, h1, h2, h3]
    · have h1 := startswith_disjoint s "https://" "huggingface://" (by decide) (by decide) h
      have h2 := startswith_disjoint s "https://" "hf://" (by decide) (by decide) h
      have h3 := startswith_disjoint s "https://" "hf.co/" (by decide) (by decide) h
      simp [isHFRef, h1, h2, h3]
  · have h1 := startswith_disjoint s "file://" "huggingface://" (by decide) (by decide) h
    have h2 := startswith_disjoint s "file://" "hf://" (by decide) (by decide) h
    have h3 := startswith_disjoint s "file://" "hf.co/" (by decide) (by decide) h
    simp [isHFRef, h1, h2, h3]

/-- A string with a URL prefix matches no OCI prefix. -/
theorem isOCIRef_false_of_url (s : String) (h : isURLRef s = true) : isOCIRef s = false := by
  rcases Bool.or_eq_true _ _ |>.mp h with h' | h
  · rcases Bool.or_eq_true _ _ |>.mp h' with h | h
    · have h1 := startswith_disjoint s "http://" "oci://" (by decide) (by decide) h
      have h2 := startswith_disjoint s "http://" "docker://" (by decide) (by decide) h
      simp [isOCIRef, h1, h2]
    · have h1 := startswith_disjoint s "https://" "oci://" (by decide) (by decide) h
      have h2 := startswith_disjoint s "https://" "docker://" (by decide) (by decide) h
      simp [isOCIRef, h1, h2]
  · have h1 := startswith_disjoint s "file://" "oci://" (by decide) (by decide) h
    have h2 := startswith_disjoint s "file://" "docker://" (by decide) (by decide) h
    simp [isOCIRef, h1, h2]

/-- C1: for every reference string that begins with a recognized transport
prefix, `New` returns the backend variant owning that prefix — Huggingface
for `huggingface://`, `hf://`, `hf.co/`; Ollama for `ollama://` or a string
containing `ollama.com/library/`; OCI for `oci://` or `docker://`; URL for
`http://`, `https://`, `file://` — independently of the configured default
transport `t` (which appears in no right-hand side), the families being
tested in that fixed priority order with the first match winning. Where the
prefix families are provably disjoint (`ollama://` cannot co-occur with a
Huggingface prefix; an OCI or URL prefix cannot co-occur with a Huggingface
prefix, nor a URL prefix with an OCI one) the earlier-family conditions are
discharged rather than assumed. -/
theorem New_explicit_transport_dispatch (s t e : String) :
    (isHFRef s = true → New s t e = .ok (.huggingface s))
    ∧ (startswith s "ollama://" = true → New s t e = .ok (.ollama s))
    ∧ (isOllamaRef s = true → isHFRef s = false → New s t e = .ok (.ollama s))
    ∧ (isOCIRef s = true → isOllamaRef s = false → New s t e = .ok (.oci s e))
    ∧ (isURLRef s = true → isOllamaRef s = false → New s t e = .ok (.url s)) := by
  refine ⟨?_, ?_, ?_, ?_, ?_⟩
  · intro h; simp [New, h]
  · intro h
    have hhf := isHFRef_false_of_ollama s h
    have ho : isOllamaRef s = true := by simp [isOllamaRef, h]
    simp [New, hhf, ho]
  · intro h hhf; simp [New, hhf, h]
  · intro h hol
    have hhf := isHFRef_false_of_oci s h
    simp [New, hhf, hol, h]
  · intro h hol
    have hhf := isHFRef_false_of_url s h
    have hoci := isOCIRef_false_of_url s h
    simp [New, hhf, hol, hoci, h]

/-- Witness for C1 at a concrete input: `ollama://x` resolves to the Ollama
backend although the default transport is `oci`. -/
theorem New_explicit_transport_dispatch_witness : New "ollama://x" "oci" "podman" = .ok (.ollama "ollama://x") :=
  (New_explicit_transport_dispatch "ollama://x" "oci" "podman").2.1 (by decide)


/-- C2: for every reference string matching no recognized transport prefix,
`New` returns the backend selected by the configured default transport when
that transport is `huggingface`, `ollama` or `oci`, and otherwise fails
with a `KeyError` whose message names the offending transport value
exactly. The resolver is embedded as a total pure function — the Python
code only tests prefixes and constructs a backend, performing no
filesystem or network effect. -/
theorem New_default_transport (s t e : String)
    (h1 : isHFRef s = false) (h2 : isOllamaRef s = false)
    (h3 : isOCIRef s = false) (h4 : isURLRef s = false) :
    (t = "huggingface" → New s t e = .ok (.huggingface s))
    ∧ (t = "ollama" → New s t e = .ok (.ollama s))
    ∧ (t = "oci" → New s t e = .ok (.oci s e))
    ∧ (t ≠ "huggingface" → t ≠ "ollama" → t ≠ "oci" →
        New s t e = .error (.keyError
          ("transport \"" ++ t ++ "\" not supported. Must be oci, huggingface, or ollama."))) := by
  refine ⟨?_, ?_, ?_, ?_⟩ <;> intros <;> simp [New, h1, h2, h3, h4, *]

/-- Witness for C2 at a concrete input: a bare name under an unsupported
default transport `bogus` fails with the error message naming `bogus`. -/
theorem New_default_transport_witness : New "mymodel" "bogus" "podman" =
    .error (.keyError "transport \"bogus\" not supported. Must be oci, huggingface, or ollama.") := by
  have h := (New_default_transport "mymodel" "bogus" "podman"
    (by decide) (by decide) (by decide) (by decide)).2.2.2
    (by decide) (by decide) (by decide)
  simpa using h

/-- C3: if the file-derived `nocontainer` flag is true, the container-usage
value of the merged effective configuration is `False`, for every
combination of configuration-file values and environment variables,
including an explicit `RAMALAMA_IN_CONTAINER` override (the `env` record is
universally quantified). -/
theorem nocontainer_forces_container_false (env : Env) (file : FileConfig)
    (conman : Option String) (dimg dstore : String) (h : file.nocontainer = some true) :
    (load_and_merge_config env file conman dimg dstore).container = .vbool false := by
  simp [load_and_merge_config, h]

/-- Witness for C3 at a concrete input: `nocontainer = true` in the file
forces container-usage `False` even with `RAMALAMA_IN_CONTAINER=true` set. -/
theorem nocontainer_forces_container_false_witness :
    (load_and_merge_config ⟨some "true", none, none, none, none⟩
      ⟨none, none, none, some true, none, none, none, none⟩
      (some "podman") "img" "store").container = .vbool false :=
  nocontainer_forces_container_false _ _ _ _ _ rfl

/-- C4: for each of the five override-able fields — container-usage flag
(`RAMALAMA_IN_CONTAINER`), engine (`RAMALAMA_CONTAINER_ENGINE`), image
(`RAMALAMA_IMAGE`), store (`RAMALAMA_STORE`), transport
(`RAMALAMA_TRANSPORT`) — whenever the environment variable is present and
non-empty, the merged effective configuration carries that environment
value, overriding any file-derived value, subject only to the
`nocontainer` rule for the container flag. -/
theorem env_overrides_win (env : Env) (file : FileConfig) (conman : Option String)
    (dimg dstore : String) :
    (∀ s, env.inContainer = some s → s ≠ "" → file.nocontainer ≠ some true →
        (load_and_merge_config env file conman dimg dstore).container = .vstr s)
    ∧ (∀ s, env.containerEngine = some s → s ≠ "" →
        (load_and_merge_config env file conman dimg dstore).engine = some s)
    ∧ (∀ s, env.image = some s → s ≠ "" →
        (load_and_merge_config env file conman dimg dstore).image = s)
    ∧ (∀ s, env.store = some s → s ≠ "" →
        (load_and_merge_config env file conman dimg dstore).store = s)
    ∧ (∀ s, env.transport = some s → s ≠ "" →
        (load_and_merge_config env file conman dimg dstore).transport = s) := by
  refine ⟨?_, ?_, ?_, ?_, ?_⟩ <;> intro s hs hne
  · intro hnc
    have hnc' : file.nocontainer.getD false = false := by
      cases hx : file.nocontainer with
      | none => rfl
      | some b => cases b with
        | false => rfl
        | true => exact absurd hx hnc
    simp [load_and_merge_config, hs, hnc']
  all_goals simp [load_and_merge_config, hs]

/-- Witness for C4 at a concrete input: `RAMALAMA_TRANSPORT=oci` overrides
a file-configured transport `ollama`. -/
theorem env_overrides_win_witness :
    (load_and_merge_config ⟨none, none, none, none, some "oci"⟩
      ⟨none, none, none, none, none, none, none, some "ollama"⟩
      none "img" "store").transport = "oci" :=
  (env_overrides_win ⟨none, none, none, none, some "oci"⟩
    ⟨none, none, none, none, none, none, none, some "ollama"⟩
    none "img" "store").2.2.2.2 "oci" rfl (by decide)


/-- A left fold accumulating a running maximum is invariant under
permutation of the list. -/
theorem foldl_max_perm {A : Type} (f : A → Nat) {l1 l2 : List A} (h : l1.Perm l2) :
    ∀ a : Nat, l1.foldl (fun w m => max w (f m)) a = l2.foldl (fun w m => max w (f m)) a := by
  induction h with
  | nil => intro a; rfl
  | cons x h ih => intro a; simp only [List.foldl_cons]; exact ih _
  | swap x y l => intro a; simp only [List.foldl_cons]; rw [Nat.max_right_comm]
  | trans h1 h2 ih1 ih2 => intro a; exact (ih1 a).trans (ih2 a)

/-- Column widths are invariant under permutation of the listing. -/
theorem colWidths_perm {l1 l2 : List ModelEntry} (h : l1.Perm l2) :
    colWidths l1 = colWidths l2 := by
  unfold colWidths
  rw [foldl_max_perm (fun m => m.name.length) h,
      foldl_max_perm (fun m => (fmtModified m).length) h,
      foldl_max_perm (fun m => m.size.length) h]

/-- Sort-elimination for the non-JSON `list` output: since the widths are
permutation-invariant, the printed lines equal those computed from the
unsorted listing, with the data rows mapped over `models` in order. -/
theorem list_cli_print_eq (noheading quiet : Bool) (models : List ModelEntry) :
    list_cli_print noheading quiet models =
      (if !quiet && !noheading then [headerLine (colWidths models)] else [])
      ++ models.map (rowLine quiet (colWidths models)) := by
  unfold list_cli_print
  rw [colWidths_perm (List.mergeSort_perm models nameLe)]

/-- C5 (amended): the non-JSON `list` operation prints the merged sequence
of local filesystem-derived entries and OCI-reported entries in listing
order — local entries (most recently modified first) followed by the OCI
entries — NOT sorted by name; the name-sorted pass of the code is consumed
only by the column-width computation, whose result is invariant under that
permutation. -/
theorem list_cli_prints_in_listing_order (noheading quiet : Bool)
    (localModels ociModels : List ModelEntry) :
    list_cli_print noheading quiet (_list_models localModels ociModels) =
      (if !quiet && !noheading then
        [headerLine (colWidths (_list_models localModels ociModels))] else [])
      ++ localModels.map (rowLine quiet (colWidths (_list_models localModels ociModels)))
      ++ ociModels.map (rowLine quiet (colWidths (_list_models localModels ociModels))) := by
  rw [list_cli_print_eq]
  simp [_list_models, List.append_assoc]

/-- C5 counterexample: for the listing holding the local entry
`ollama://foo` (size 10 B, modified 5 s ago) and the OCI-reported entry
`oci://bar` (size 20 B), the non-JSON output prints the `ollama://foo` row
before the `oci://bar` row, refuting the claimed ascending-by-name print
order. -/
theorem list_cli_example_not_sorted :
    list_cli_print false false exampleModels =
      ["NAME         MODIFIED      SIZE",
       "ollama://foo 5 seconds ago 10 B",
       "oci://bar    N/A           20 B"]
    ∧ List.indexOf "ollama://foo 5 seconds ago 10 B" (list_cli_print false false exampleModels)
      < List.indexOf "oci://bar    N/A           20 B" (list_cli_print false false exampleModels) := by
  have h := list_cli_print_eq false false exampleModels
  constructor
  · rw [h]; decide
  · rw [h]; decide

/-- C9: `human_duration` maps each boundary input exactly as specified:
0 → "Less than a second", 1 → "1 second", 59 → "59 seconds",
3661 → "1 hour", 90000 → "1 day", 31536001 → "1 year". -/
theorem human_duration_boundaries :
    human_duration 0 = "Less than a second"
    ∧ human_duration 1 = "1 second"
    ∧ human_duration 59 = "59 seconds"
    ∧ human_duration 3661 = "1 hour"
    ∧ human_duration 90000 = "1 day"
    ∧ human_duration 31536001 = "1 year" :=
  ⟨rfl, rfl, rfl, rfl, rfl, rfl⟩

/-- C10: `normalize_registry` maps `None`, the empty string and any string
starting with `oci://` to `oci://`; returns `ollama` and the literal
`hfhuggingface` (the accidental concatenation of adjacent Python string
literals) unchanged; prepends `oci://` to every other value — in
particular `hf` and `huggingface` become `oci://hf` and
`oci://huggingface`, which `New` then routes to the OCI backend. -/
theorem normalize_registry_behaviour (s t e : String) :
    normalize_registry none = "oci://"
    ∧ normalize_registry (some "") = "oci://"
    ∧ (startswith s "oci://" = true → normalize_registry (some s) = "oci://")
    ∧ normalize_registry (some "ollama") = "ollama"
    ∧ normalize_registry (some "hfhuggingface") = "hfhuggingface"
    ∧ normalize_registry (some "hf") = "oci://hf"
    ∧ normalize_registry (some "huggingface") = "oci://huggingface"
    ∧ (s ≠ "" → startswith s "oci://" = false → s ≠ "ollama" → s ≠ "hfhuggingface" →
        normalize_registry (some s) = "oci://" ++ s)
    ∧ New (normalize_registry (some "hf")) t e = .ok (.oci "oci://hf" e)
    ∧ New (normalize_registry (some "huggingface")) t e = .ok (.oci "oci://huggingface" e) := by
  refine ⟨rfl, rfl, ?_, rfl, rfl, rfl, rfl, ?_, ?_, ?_⟩
  · intro h; simp [normalize_registry, h]
  · intro h1 h2 h3 h4; simp [normalize_registry, h1, h2, h3, h4]
  · have : normalize_registry (some "hf") = "oci://hf" := rfl
    rw [this]
    simp [New, show isHFRef "oci://hf" = false from by decide,
      show isOllamaRef "oci://hf" = false from by decide,
      show isOCIRef "oci://hf" = true from by decide]
  · have : normalize_registry (some "huggingface") = "oci://huggingface" := rfl
    rw [this]
    simp [New, show isHFRef "oci://huggingface" = false from by decide,
      show isOllamaRef "oci://huggingface" = false from by decide,
      show isOCIRef "oci://huggingface" = true from by decide]

/-- Witness for C10 at a concrete input: a registry already carrying the
`oci://` prefix normalizes to `oci://`. -/
theorem normalize_registry_behaviour_witness : normalize_registry (some "oci://quay.io") = "oci://" :=
  (normalize_registry_behaviour "oci://quay.io" "ollama" "podman").2.2.1 (by decide)


/-- C6: removing a model name carrying an explicit `oci://` prefix whose
removal the OCI backend reports as failing because the model is missing
(signalled, per the spec, as the recoverable `KeyError` condition, the
container-image fallback failing likewise) surfaces the failure to the
caller when the ignore flag is false, and returns successfully with no
error when the ignore flag is true. -/
theorem rm_explicit_oci_missing (name msg : String) (e2 : Err) (env : RmEnv)
    (engine transport : String)
    (hpre : startswith name "oci://" = true)
    (hcon : containsSub name "ollama.com/library/" = false)
    (hshort : env.shortnameResolve name = none)
    (hrm : env.removeModel (.oci name engine) = .error (.keyError msg))
    (hoci : env.removeOci name engine = .error e2) :
    (_rm_model env ⟨false, false, [name], engine, transport⟩ [name]).1
      = .error (.keyError msg)
    ∧ (_rm_model env ⟨false, true, [name], engine, transport⟩ [name]).1 = .ok () := by
  have hoc : isOCIRef name = true := by simp [isOCIRef, hpre]
  have hhf := isHFRef_false_of_oci name hoc
  have holsw := startswith_disjoint name "oci://" "ollama://" (by decide) (by decide) hpre
  have holl : isOllamaRef name = false := by simp [isOllamaRef, holsw, hcon]
  have hNew : New name transport engine = .ok (.oci name engine) := by
    simp [New, hhf, holl, hoc]
  have hany : (MODEL_TYPES.any fun p => startswith name (p ++ "://")) = true := by
    apply List.any_eq_true.mpr
    refine ⟨"oci", by decide, ?_⟩
    rw [show ("oci" ++ "://" : String) = "oci://" from rfl]
    exact hpre
  constructor
  · simp [_rm_model, rmOne, hshort, hNew, hrm, Err.isKeyError, hany, hoci]
  · simp [_rm_model, rmOne, hshort, hNew, hrm, Err.isKeyError, hany, hoci]

/-- Witness for C6 at a concrete input, under the environment in which the
OCI backend reports `oci://x` as missing. -/
theorem rm_explicit_oci_missing_witness :
    (_rm_model missingOciEnv ⟨false, false, ["oci://x"], "podman", "ollama"⟩ ["oci://x"]).1
      = .error (.keyError "removing oci://x: model not found")
    ∧ (_rm_model missingOciEnv ⟨false, true, ["oci://x"], "podman", "ollama"⟩ ["oci://x"]).1
      = .ok () :=
  rm_explicit_oci_missing "oci://x" "removing oci://x: model not found"
    (.keyError "image not known") missingOciEnv "podman" "ollama"
    (by decide) (by decide) rfl rfl rfl

/-- C7: conflicting-flag usage errors are raised before any side effect —
`stop` with both `--all` and an explicit (truthy, i.e. non-empty) container
NAME fails with a `ValueError` and an empty engine-call trace; `rm` with
neither `--all` nor MODEL names, or with both, fails with an `IndexError`
and an empty trace of listing/removal actions. -/
theorem conflicting_flags_rejected (eenv : EngineEnv) (renv : RmEnv)
    (sargs : StopArgs) (rargs : RmArgs) (localNames : List String) (n : String) :
    (sargs.all = true → sargs.name = some n → n ≠ "" →
      stop_container eenv sargs =
        (.error (.valueError ("specifying --all and container name, " ++ n ++ ", not allowed")), []))
    ∧ (rargs.all = false → rargs.models = [] →
      rm_cli renv localNames rargs =
        (.error (.indexError "one MODEL or --all must be specified"), []))
    ∧ (rargs.all = true → rargs.models ≠ [] →
      rm_cli renv localNames rargs =
        (.error (.indexError "can not specify --all as well MODEL"), [])) := by
  refine ⟨?_, ?_, ?_⟩
  · intro ha hn hne; simp [stop_container, ha, hn, hne]
  · intro ha hm; simp [rm_cli, ha, hm]
  · intro ha hm
    have hl : rargs.models.length > 0 := List.length_pos.mpr hm
    simp [rm_cli, ha, hl]

/-- Witness for C7 at a concrete input: `stop --all NAME` is rejected with
no engine invocation. -/
theorem conflicting_flags_rejected_witness :
    stop_container failingEngine ⟨true, some "c", false, "podman", false, false, none⟩ =
      (.error (.valueError ("specifying --all and container name, " ++ "c" ++ ", not allowed")), []) :=
  (conflicting_flags_rejected failingEngine missingOciEnv
    ⟨true, some "c", false, "podman", false, false, none⟩
    ⟨false, false, [], "podman", "ollama"⟩ [] "c").1 rfl rfl (by decide)

/-- C8 counterexample: with the engine `nerdctl` — which does not natively
support an ignore flag — the ignore flag requested, and the engine exiting
nonzero ("not found"), `_stop_container` propagates the failure instead of
swallowing it (the diagnostic stream is suppressed, as the trace records),
refuting the claim that any non-natively-supporting engine swallows the
not-found failure under ignore semantics. -/
theorem stop_ignore_fail_propagates_nerdctl :
    _stop_container failingEngine ⟨false, some "c", true, "nerdctl", false, false, none⟩ (some "c")
      = (.error (.calledProcessError 1), [⟨["nerdctl", "stop", "-t=0", "c"], true⟩]) := rfl

/-- C8 (amended): when the configured engine is podman, requesting ignore
passes `--ignore True` on the engine command line; for every other engine,
requesting ignore suppresses the diagnostic stream instead; a nonzero-exit
failure is swallowed only when ignore was requested and the engine is
docker; without the ignore flag — and also with it, on any engine other
than podman and docker — a failure propagates to the caller. -/
theorem stop_container_ignore_semantics (env : EngineEnv) (args : StopArgs) (n : String)
    (hn : n ≠ "") (he : args.engine ≠ "") :
    (args.ignore = true → args.engine = "podman" →
      (_stop_container env args (some n)).2 =
        [⟨[args.engine, "stop", "-t=0", "--ignore", "True", n], false⟩])
    ∧ (args.ignore = true → args.engine ≠ "podman" →
      (_stop_container env args (some n)).2 = [⟨[args.engine, "stop", "-t=0", n], true⟩])
    ∧ (∀ code, args.ignore = true → args.engine = "docker" →
        env.run [args.engine, "stop", "-t=0", n] true = .error code →
        (_stop_container env args (some n)).1 = .ok ())
    ∧ (∀ code, args.ignore = false →
        env.run [args.engine, "stop", "-t=0", n] false = .error code →
        (_stop_container env args (some n)).1 = .error (.calledProcessError code))
    ∧ (∀ code, args.ignore = true → args.engine ≠ "podman" → args.engine ≠ "docker" →
        env.run [args.engine, "stop", "-t=0", n] true = .error code →
        (_stop_container env args (some n)).1 = .error (.calledProcessError code)) := by
  refine ⟨?_, ?_, ?_, ?_, ?_⟩
  · intro hi hp
    simp only [_stop_container, hn, he, hi, hp]
    cases hr : env.run ["podman", "stop", "-t=0", "--ignore", "True", n] false <;> simp [hr]
  · intro hi hp
    simp only [_stop_container, hn, he, hi, hp]
    cases hr : env.run [args.engine, "stop", "-t=0", n] true with
    | ok v => simp [hr, hn, he, hp, hi]
    | error c =>
      by_cases hd : args.engine = "docker"
      · rw [hd] at hr; simp [hr, hn, he, hp, hi, hd]
      · simp [hr, hn, he, hp, hi, hd]
  · intro code hi hd hr
    simp only [_stop_container, hn, he, hi, hd] at hr ⊢
    simp [hr, hn, he, hi, hd]
  · intro code hi hr
    simp only [_stop_container, hn, he, hi] at hr ⊢
    simp [hr, hn, he, hi]
  · intro code hi hp hd hr
    simp only [_stop_container, hn, he, hi, hp, hd] at hr ⊢
    simp [hr, hn, he, hi, hp, hd]

/-- Witness for C8 at a concrete input: docker with ignore swallows a
nonzero exit. -/
theorem stop_container_ignore_semantics_witness :
    (_stop_container failingEngine ⟨false, some "c", true, "docker", false, false, none⟩
      (some "c")).1 = .ok () :=
  (stop_container_ignore_semantics failingEngine
    ⟨false, some "c", true, "docker", false, false, none⟩ "c"
    (by decide) (by decide)).2.2.1 1 rfl rfl rfl

end Ramalama
